import Mathlib

/-!
Shallow embedding of `src/Auth0Client.ts` (auth0-ionic). Scope strings are
represented by their word lists (a space-separated scope string corresponds to
the list of its words); `undefined` values become `Option`; the persisted
state touched by the client (credential cache, transaction store, the
`auth0.is.authenticated` flag, the cross-tab lock) is threaded explicitly as a
`ClientState`, together with event counters (lock acquisitions and releases,
token-endpoint calls, cache writes) used to state frame properties. The token
endpoint (`oauthToken`) and the ID-token verifier (`jwt.verify`) are external
boundaries and appear as oracle function parameters.
-/

namespace Auth0

/-- A scope value: the word list of a space-separated scope string. -/
abbrev Scope := List String

/-- JavaScript truthiness of an optional string: `undefined` and the empty
string are falsy, every other string is truthy. -/
def strTruthy : Option String → Bool
  | some s => !(s = (""))
  | none => false

/-- JavaScript truthiness of an optional scope (a scope string is falsy
exactly when it is `undefined` or empty). -/
def scopeTruthy : Option Scope → Bool
  | some s => !s.isEmpty
  | none => false

/-- First-occurrence deduplication with an accumulator of already-seen words. -/
def dedupAux (seen : List String) : List String → List String
  | [] => []
  | x :: xs => if x ∈ seen then dedupAux seen xs else x :: dedupAux (x :: seen) xs

/-- Modelled from the spec: `getUniqueScopes` (src/scope.ts is absent from the
repository) — the ordered-unique union of the given scope values, dropping
absent arguments and keeping the first occurrence of each word. -/
def getUniqueScopes (scopes : List (Option Scope)) : Scope :=
  dedupAux [] (scopes.filterMap id).flatten

/-- Modelled from the spec: `DEFAULT_SCOPE` (src/constants.ts is absent); the
spec's example gives the default scope as openid profile email. -/
def DEFAULT_SCOPE : Scope := [("openid"), ("profile"), ("email")]

/-- One side of a scope-set comparison: every word of `a` occurs in `b`. -/
def scopeSubset (a b : Scope) : Bool := a.all (fun w => decide (w ∈ b))

/-- Order-independent equality of two scope values as sets of words. -/
def scopeSetEq (a b : Scope) : Bool := scopeSubset a b && scopeSubset b a

/-- Decoded ID token as produced by the verifier boundary. -/
structure DecodedToken where
  user : String
  claims : String
deriving DecidableEq

/-- Raw token-endpoint response (`access_token`, `id_token`, optional
`refresh_token`, `expires_in`). -/
structure TokenResponse where
  access_token : String
  id_token : String
  refresh_token : Option String := none
  expires_in : Nat
deriving DecidableEq

/-- Modelled from the spec: a Credential Cache entry (src/cache.ts is absent).
Fields are optional because `getTokenSilently` can save a degenerate entry
holding only `client_id` (spreading an `Error` value or `undefined`
contributes no fields); `expires_at` is the absolute expiry the cache derives
from `expires_in` at save time. -/
structure CacheEntry where
  client_id : String
  audience : Option String := none
  scope : Option Scope := none
  access_token : Option String := none
  id_token : Option String := none
  refresh_token : Option String := none
  expires_at : Option Nat := none
  decodedToken : Option DecodedToken := none
deriving DecidableEq

/-- Modelled from the spec: one in-flight authorization attempt, keyed by its
`state` value (src/transaction-manager.ts is absent). -/
structure Transaction where
  nonce : String
  code_verifier : String
  appState : Option String := none
  scope : Scope
  audience : String
  redirect_uri : Option String := none
deriving DecidableEq

/-- The persisted state the client touches, together with event counters used
for frame properties: `lockHeld`, `acquires`, `releases` model the cross-tab
mutex (browser-tabs-lock, external), `exchangeCalls` counts token-endpoint
invocations, `cacheSaves` counts cache writes, `flag` is the persisted
`auth0.is.authenticated` boolean (src/storage.ts is absent, modelled from the
spec as a plain boolean). -/
structure ClientState where
  cache : List CacheEntry := []
  transactions : List (String × Transaction) := []
  flag : Bool := false
  lockHeld : Bool := false
  acquires : Nat := 0
  releases : Nat := 0
  exchangeCalls : Nat := 0
  cacheSaves : Nat := 0
deriving DecidableEq

/-- Constructor options of `Auth0Client` (the fields the embedded operations
consult). `defaultScopeOption` stands for `advancedOptions.defaultScope`. -/
structure Auth0ClientOptions where
  client_id : String
  domain : String
  audience : Option String := none
  scope : Option Scope := none
  useRefreshTokens : Bool := false
  redirect_uri : Option String := none
  defaultScopeOption : Option Scope := none
deriving DecidableEq

/-- The client after construction: `defaultScope` and `scope` are the fields
the constructor derives from the options. -/
structure Auth0Client where
  options : Auth0ClientOptions
  defaultScope : Scope
  scope : Option Scope
deriving DecidableEq

/-- The `Auth0Client` constructor: `defaultScope` is the ordered-unique union
of openid with the configured default scope (falling back to `DEFAULT_SCOPE`),
and when refresh tokens are enabled the client scope gains offline_access. -/
def mkAuth0Client (o : Auth0ClientOptions) : Auth0Client :=
  { options := o
    defaultScope :=
      getUniqueScopes [some [("openid")], some (o.defaultScopeOption.getD DEFAULT_SCOPE)]
    scope :=
      if o.useRefreshTokens then
        some (getUniqueScopes [o.scope, some [("offline_access")]])
      else o.scope }

/-- The `audience || 'default'` normalization (JavaScript `||`: `undefined`
and the empty string both fall back to the literal default). -/
def audOrDefault : Option String → String
  | some a => if a = ("") then ("default") else a
  | none => ("default")

/-- Whether a cache entry matches a lookup key: same `client_id`, same
`audience`, and scope equal as a set of words (the spec keys entries by the
normalized scope set). -/
def entryKeyMatch (e : CacheEntry) (cid : String) (aud : Option String)
    (sc : Option Scope) : Bool :=
  decide (e.client_id = cid) && decide (e.audience = aud) &&
    (match e.scope, sc with
     | some s1, some s2 => scopeSetEq s1 s2
     | none, none => true
     | _, _ => false)

/-- Whether a cache entry is still live under a grace window: it has an
absolute expiry strictly more than `grace` seconds after `now`. -/
def entryFresh (e : CacheEntry) (grace now : Nat) : Bool :=
  match e.expires_at with
  | some exp => decide (now + grace < exp)
  | none => false

/-- Modelled from the spec: the Credential Cache lookup (src/cache.ts is
absent) — return the entry for the given key, treating it as missing if it
expires within the grace window. -/
def cacheGet (cache : List CacheEntry) (cid : String) (aud : Option String)
    (sc : Option Scope) (grace now : Nat) : Option CacheEntry :=
  cache.find? (fun e => entryKeyMatch e cid aud sc && entryFresh e grace now)

/-- Modelled from the spec: the Credential Cache write (src/cache.ts is
absent) — overwrite the entry at the new entry's key. -/
def cacheSave (cache : List CacheEntry) (e : CacheEntry) : List CacheEntry :=
  e :: cache.filter (fun x => !(entryKeyMatch x e.client_id e.audience e.scope))

/-- Modelled from the spec: Transaction Store lookup by `state`
(src/transaction-manager.ts is absent); an absent `state` finds nothing. -/
def txGet (txs : List (String × Transaction)) (s : Option String) :
    Option Transaction :=
  match s with
  | none => none
  | some k => (txs.find? (fun p => decide (p.1 = k))).map (fun p => p.2)

/-- Modelled from the spec: Transaction Store removal by `state`
(src/transaction-manager.ts is absent). -/
def txRemove (txs : List (String × Transaction)) (s : Option String) :
    List (String × Transaction) :=
  match s with
  | none => txs
  | some k => txs.filter (fun p => !(decide (p.1 = k)))

/-- `lock.acquireLock(GET_TOKEN_SILENTLY_LOCK_KEY, 5000)`: the cross-tab mutex
acquisition (browser-tabs-lock, external); the source ignores its boolean
result, so the model records the acquisition and marks the lock held. -/
def acquireLock (st : ClientState) : ClientState :=
  { st with lockHeld := true, acquires := st.acquires + 1 }

/-- `lock.releaseLock(GET_TOKEN_SILENTLY_LOCK_KEY)`: the cross-tab mutex
release performed in the `finally` block. -/
def releaseLock (st : ClientState) : ClientState :=
  { st with lockHeld := false, releases := st.releases + 1 }

/-- Options accepted by `getTokenSilently` (fields the source consults). -/
structure GetTokenSilentlyOptions where
  ignoreCache : Option Bool := none
  audience : Option String := none
  scope : Option Scope := none
  redirect_uri : Option String := none
deriving DecidableEq

/-- The merged audience of `getTokenSilently`: the object spread
`audience: this.options.audience, ...options` lets a per-call audience
override the client-level one. -/
def effAudience (c : Auth0Client) (o : GetTokenSilentlyOptions) : Option String :=
  match o.audience with
  | some a => some a
  | none => c.options.audience

/-- The scope `getTokenSilently` uses in its cache key:
`getUniqueScopes(this.defaultScope, this.scope, options.scope)`. -/
def gtsKeyScope (c : Auth0Client) (callScope : Option Scope) : Scope :=
  getUniqueScopes [some c.defaultScope, c.scope, callScope]

/-- `getTokenOptions` as passed on to `_getTokenUsingRefreshToken`: the merged
options with `ignoreCache` destructured away and `scope` replaced by the
three-way unique union. -/
def gtsTokenOptions (c : Auth0Client) (o : GetTokenSilentlyOptions) :
    GetTokenSilentlyOptions :=
  { ignoreCache := none
    audience := effAudience c o
    scope := some (gtsKeyScope c o.scope)
    redirect_uri := o.redirect_uri }

/-- The early cache-hit value of `getTokenSilently`: unless `ignoreCache`, the
cache is read with a 60-second grace window and, if the entry carries a truthy
`access_token`, that token is returned without acquiring the lock. -/
def gtsEarlyHit (c : Auth0Client) (o : GetTokenSilentlyOptions)
    (cache : List CacheEntry) (now : Nat) : Option String :=
  if o.ignoreCache.getD false then none
  else
    match cacheGet cache c.options.client_id
        (some (audOrDefault (effAudience c o)))
        (some (gtsKeyScope c o.scope)) 60 now with
    | some e => if strTruthy e.access_token then e.access_token else none
    | none => none

/-- The guard on the refresh branch:
`this.options.useRefreshTokens && !options.audience` (the raw per-call
audience, before merging with the client audience). -/
def refreshApplicable (c : Auth0Client) (o : GetTokenSilentlyOptions) : Bool :=
  c.options.useRefreshTokens && !(strTruthy o.audience)

/-- The value bound to `authResult` inside `getTokenSilently`: either a
credential draft, or the `Error('Could not refresh token')` object built as a
plain value when the refresh branch is not taken, or `undefined` from the bare
`return` of `_getTokenUsingRefreshToken`. -/
inductive SilentAuthResult where
  | ok (d : TokenResponse) (decoded : DecodedToken) (scope : Scope) (audience : String)
  | errObj
  | undef
deriving DecidableEq

/-- Errors thrown out of `getTokenSilently`: a TypeError from reading
`access_token` off `undefined`, or a propagated token-endpoint or
verification failure. -/
inductive TokenError where
  | typeError
  | oauthError (msg : String)
  | verifyError (msg : String)
deriving DecidableEq

/-- How a `getTokenSilently` call terminates: a normal return (with
`none` standing for the JavaScript `undefined`) or a thrown error. -/
inductive GtsOutcome where
  | ret (v : Option String)
  | thrown (e : TokenError)
deriving DecidableEq

/-- The scope `_getTokenUsingRefreshToken` recomputes:
`getUniqueScopes(this.defaultScope, this.options.scope, options.scope)` (note
the raw constructor scope, not the offline_access-augmented one). -/
def refreshKeyScope (c : Auth0Client) (callScope : Option Scope) : Scope :=
  getUniqueScopes [some c.defaultScope, c.options.scope, callScope]

/-- The cache read `_getTokenUsingRefreshToken` performs (no grace window). -/
def refreshCacheLookup (c : Auth0Client) (o : GetTokenSilentlyOptions)
    (cache : List CacheEntry) (now : Nat) : Option CacheEntry :=
  cacheGet cache c.options.client_id (some (audOrDefault o.audience))
    (some (refreshKeyScope c o.scope)) 0 now

/-- `_getTokenUsingRefreshToken`: read the cache for the current key; on a
missing entry or missing/empty `refresh_token` do a bare `return`
(`undefined`); otherwise call the token endpoint with the refresh-token grant,
verify the returned ID token (no nonce), and return the credential draft.
Endpoint and verifier failures propagate. -/
def getTokenUsingRefreshToken (c : Auth0Client) (o : GetTokenSilentlyOptions)
    (st : ClientState) (now : Nat)
    (oauth : Option String → Except String TokenResponse)
    (verify : String → Option String → Except String DecodedToken) :
    Except TokenError SilentAuthResult × ClientState :=
  match refreshCacheLookup c o st.cache now with
  | none => (Except.ok SilentAuthResult.undef, st)
  | some e =>
    if strTruthy e.refresh_token then
      let st2 := { st with exchangeCalls := st.exchangeCalls + 1 }
      match oauth e.refresh_token with
      | Except.error m => (Except.error (TokenError.oauthError m), st2)
      | Except.ok tok =>
        match verify tok.id_token none with
        | Except.error m => (Except.error (TokenError.verifyError m), st2)
        | Except.ok dec =>
          (Except.ok (SilentAuthResult.ok tok dec (refreshKeyScope c o.scope)
            (audOrDefault o.audience)), st2)
    else (Except.ok SilentAuthResult.undef, st)

/-- The cache entry written by `this.cache.save({client_id, ...authResult})`:
a full record for a credential draft, and a degenerate record holding only
`client_id` when `authResult` is the `Error` object or `undefined` (spreading
either contributes no enumerable fields). -/
def entryOfAuthResult (cid : String) (r : SilentAuthResult) (now : Nat) :
    CacheEntry :=
  match r with
  | SilentAuthResult.ok tok dec sc aud =>
    { client_id := cid
      audience := some aud
      scope := some sc
      access_token := some tok.access_token
      id_token := some tok.id_token
      refresh_token := tok.refresh_token
      expires_at := some (now + tok.expires_in)
      decodedToken := some dec }
  | SilentAuthResult.errObj => { client_id := cid }
  | SilentAuthResult.undef => { client_id := cid }

/-- The tail of `getTokenSilently` after `authResult` is bound: save the cache
entry, persist the authenticated flag, then evaluate
`authResult.access_token` — a string for a draft, `undefined` for the `Error`
object (no such property), and a thrown TypeError when `authResult` itself is
`undefined`. -/
def finishAuth (cid : String) (r : SilentAuthResult) (st : ClientState)
    (now : Nat) : GtsOutcome × ClientState :=
  let st1 := { st with
    cache := cacheSave st.cache (entryOfAuthResult cid r now)
    cacheSaves := st.cacheSaves + 1
    flag := true }
  match r with
  | SilentAuthResult.ok tok _ _ _ => (GtsOutcome.ret (some tok.access_token), st1)
  | SilentAuthResult.errObj => (GtsOutcome.ret none, st1)
  | SilentAuthResult.undef => (GtsOutcome.thrown TokenError.typeError, st1)

/-- The `try` block of `getTokenSilently`: early cache hit, otherwise acquire
the lock, take the refresh branch when applicable (else bind the `Error`
value), and finish by saving and returning. -/
def gtsBody (c : Auth0Client) (o : GetTokenSilentlyOptions) (st : ClientState)
    (now : Nat) (oauth : Option String → Except String TokenResponse)
    (verify : String → Option String → Except String DecodedToken) :
    GtsOutcome × ClientState :=
  match gtsEarlyHit c o st.cache now with
  | some t => (GtsOutcome.ret (some t), st)
  | none =>
    let st1 := acquireLock st
    match (if refreshApplicable c o then
             getTokenUsingRefreshToken c (gtsTokenOptions c o) st1 now oauth verify
           else (Except.ok SilentAuthResult.errObj, st1)) with
    | (Except.error e, st2) => (GtsOutcome.thrown e, st2)
    | (Except.ok r, st2) => finishAuth c.options.client_id r st2 now

/-- `getTokenSilently`: the `try` body wrapped by the `finally` that releases
the cross-tab lock on every exit path. -/
def getTokenSilently (c : Auth0Client) (o : GetTokenSilentlyOptions)
    (st : ClientState) (now : Nat)
    (oauth : Option String → Except String TokenResponse)
    (verify : String → Option String → Except String DecodedToken) :
    GtsOutcome × ClientState :=
  let b := gtsBody c o st now oauth verify
  (b.1, releaseLock b.2)

/-- The query parameters `parseQueryResult` extracts (src/utils.ts is absent;
modelled from the spec: the parsed `state`, `code`, `error`,
`error_description` fields, each possibly absent). A whole-URL input with no
query string is modelled as `none` at the call site. -/
structure ParsedQuery where
  state : Option String := none
  code : Option String := none
  error : Option String := none
  error_description : Option String := none
deriving DecidableEq

/-- Errors thrown out of `handleRedirectCallback`: the no-query-params error,
the Invalid state error, the `AuthenticationError` (src/errors.ts is absent;
modelled from the spec as carrying error code, description, state, and the
transaction's appState), and propagated endpoint or verifier failures. -/
inductive CallbackError where
  | parseError
  | invalidState
  | authenticationError (error : String) (error_description : Option String)
      (state : Option String) (appState : Option String)
  | oauthError (msg : String)
  | verifyError (msg : String)
deriving DecidableEq

/-- `handleRedirectCallback`: fail on a missing query string; look up the
transaction by `state` and fail with Invalid state when absent; on a truthy
`error` parameter remove the transaction and throw `AuthenticationError`;
otherwise remove the transaction, exchange the code, verify the ID token
against the transaction nonce, save the credential record, set the
authenticated flag, and return the transaction's `appState`. -/
def handleRedirectCallback (c : Auth0Client) (query : Option ParsedQuery)
    (st : ClientState) (now : Nat)
    (oauth : Option String → Except String TokenResponse)
    (verify : String → Option String → Except String DecodedToken) :
    Except CallbackError (Option String) × ClientState :=
  match query with
  | none => (Except.error CallbackError.parseError, st)
  | some q =>
    match txGet st.transactions q.state with
    | none => (Except.error CallbackError.invalidState, st)
    | some tx =>
      if strTruthy q.error then
        let st2 := { st with transactions := txRemove st.transactions q.state }
        (Except.error (CallbackError.authenticationError (q.error.getD (""))
          q.error_description q.state tx.appState), st2)
      else
        let st2 := { st with transactions := txRemove st.transactions q.state }
        let st3 := { st2 with exchangeCalls := st2.exchangeCalls + 1 }
        match oauth q.code with
        | Except.error m => (Except.error (CallbackError.oauthError m), st3)
        | Except.ok tok =>
          match verify tok.id_token (some tx.nonce) with
          | Except.error m => (Except.error (CallbackError.verifyError m), st3)
          | Except.ok dec =>
            let entry : CacheEntry :=
              { client_id := c.options.client_id
                audience := some tx.audience
                scope := some tx.scope
                access_token := some tok.access_token
                id_token := some tok.id_token
                refresh_token := tok.refresh_token
                expires_at := some (now + tok.expires_in)
                decodedToken := some dec }
            let st4 := { st3 with
              cache := cacheSave st3.cache entry
              cacheSaves := st3.cacheSaves + 1
              flag := true }
            (Except.ok tx.appState, st4)

/-- Options accepted by `getUser` and `getIdTokenClaims`. -/
structure GetUserOptions where
  audience : Option String := none
  scope : Option Scope := none
deriving DecidableEq

/-- The default argument of `getUser` and `getIdTokenClaims`:
`audience: this.options.audience || 'default'` and
`scope: this.scope || this.defaultScope`. -/
def defaultGetUserOptions (c : Auth0Client) : GetUserOptions :=
  { audience := some (audOrDefault c.options.audience)
    scope := some (if scopeTruthy c.scope then c.scope.getD [] else c.defaultScope) }

/-- The scope `getUser` uses in its cache key:
`getUniqueScopes(this.defaultScope, options.scope)` — the client-configured
scope is not part of this union. -/
def getUserKeyScope (c : Auth0Client) (callScope : Option Scope) : Scope :=
  getUniqueScopes [some c.defaultScope, callScope]

/-- `getUser`: read the cache at `(client_id, options.audience, key scope)`
and return `cache.decodedToken.user` when present. -/
def getUser (c : Auth0Client) (options : Option GetUserOptions)
    (st : ClientState) (now : Nat) : Option String :=
  let o := options.getD (defaultGetUserOptions c)
  match cacheGet st.cache c.options.client_id o.audience
      (some (getUserKeyScope c o.scope)) 0 now with
  | some e => e.decodedToken.map (fun d => d.user)
  | none => none

/-- The scope `getIdTokenClaims` uses in its cache key:
`getUniqueScopes(this.defaultScope, this.scope, options.scope)`. -/
def getIdTokenClaimsKeyScope (c : Auth0Client) (callScope : Option Scope) : Scope :=
  getUniqueScopes [some c.defaultScope, c.scope, callScope]

/-- `getIdTokenClaims`: read the cache at
`(client_id, options.audience, key scope)` and return
`cache.decodedToken.claims` when present. -/
def getIdTokenClaims (c : Auth0Client) (options : Option GetUserOptions)
    (st : ClientState) (now : Nat) : Option String :=
  let o := options.getD (defaultGetUserOptions c)
  match cacheGet st.cache c.options.client_id o.audience
      (some (getIdTokenClaimsKeyScope c o.scope)) 0 now with
  | some e => e.decodedToken.map (fun d => d.claims)
  | none => none

/-- Options accepted by `logout` (the fields the source consults). -/
structure LogoutOptions where
  federated : Bool := false
  localOnly : Bool := false
  logoutFromNative : Bool := false
  client_id : Option String := none
deriving DecidableEq

/-- Modelled from the spec: the logout URL (URL construction details are out
of scope for the spec; src/utils.ts is absent) — a domain-scoped v2/logout URL
with the federated marker appended when requested. -/
def buildLogoutUrl (c : Auth0Client) (o : LogoutOptions) : String :=
  (("https://") ++ c.options.domain ++ ("/v2/logout")) ++
    (if o.federated then ("&federated") else (""))

/-- `logout`: reject the `localOnly && federated` combination before touching
any state; otherwise clear the Credential Cache and the authenticated flag,
then return `null` for local-only logout, the logout URL when
`logoutFromNative`, and `null` after assigning the location otherwise. -/
def logout (c : Auth0Client) (o : LogoutOptions) (st : ClientState) :
    Except String (Option String) × ClientState :=
  if o.localOnly && o.federated then
    (Except.error
      (("It is invalid to set both the federated and localOnly options to true")), st)
  else
    let st2 := { st with cache := [], flag := false }
    if o.localOnly then (Except.ok none, st2)
    else if o.logoutFromNative then (Except.ok (some (buildLogoutUrl c o)), st2)
    else (Except.ok none, st2)

/-- The words of an optional scope value (`undefined` has no words). -/
def optScope (o : Option Scope) : Scope := o.getD []

/-- Whether the cache read of `_getTokenUsingRefreshToken` fails to produce a
usable refresh token: no entry, or an entry whose `refresh_token` is falsy. -/
def refreshTokenMissing (c : Auth0Client) (o : GetTokenSilentlyOptions)
    (cache : List CacheEntry) (now : Nat) : Bool :=
  match refreshCacheLookup c o cache now with
  | some e => !(strTruthy e.refresh_token)
  | none => true

/-- A concrete client with refresh tokens disabled. -/
def cNoRt : Auth0Client := mkAuth0Client { client_id := ("cid"), domain := ("d") }

/-- A concrete client with refresh tokens enabled. -/
def cRt : Auth0Client :=
  mkAuth0Client { client_id := ("cid"), domain := ("d"), useRefreshTokens := true }

/-- A concrete client with a configured client-wide scope. -/
def cScoped : Auth0Client :=
  mkAuth0Client { client_id := ("cid"), domain := ("d"), scope := some [("read:custom")] }

/-- A token endpoint that always fails. -/
def oauthFail : Option String → Except String TokenResponse :=
  fun _ => Except.error (("transport"))

/-- A verifier that always fails. -/
def verifyFail : String → Option String → Except String DecodedToken :=
  fun _ _ => Except.error (("bad token"))

/-- A concrete successful token-endpoint response. -/
def tokOk : TokenResponse :=
  { access_token := ("at2"), id_token := ("idt"), expires_in := 86400 }

/-- A token endpoint that always succeeds with `tokOk`. -/
def oauthOk : Option String → Except String TokenResponse :=
  fun _ => Except.ok tokOk

/-- A concrete decoded token. -/
def decOk : DecodedToken := { user := ("u"), claims := ("cl") }

/-- A verifier that always succeeds with `decOk`. -/
def verifyOk : String → Option String → Except String DecodedToken :=
  fun _ _ => Except.ok decOk

/-- A concrete live cache entry for `cNoRt` at the default audience. -/
def entryHit : CacheEntry :=
  { client_id := ("cid"), audience := some (("default"))
    scope := some cNoRt.defaultScope, access_token := some (("tok"))
    expires_at := some 1000 }

/-- A state holding `entryHit`. -/
def stHit : ClientState := { cache := [entryHit] }

/-- A second live cache entry, for the `c10` witness. -/
def entryHit2 : CacheEntry :=
  { client_id := ("cid"), audience := some (("default"))
    scope := some cNoRt.defaultScope, access_token := some (("tok2"))
    expires_at := some 5000 }

/-- A state holding `entryHit2` with nonzero counters. -/
def stHit2 : ClientState := { cache := [entryHit2], acquires := 4, releases := 4 }

/-- A state with nonzero counters and an empty cache, for the `c9` witness. -/
def stC9 : ClientState := { cacheSaves := 2, flag := false }

/-- A distinct state for the `c2` witness. -/
def stC2 : ClientState := { flag := true }

/-- A concrete transaction. -/
def txX : Transaction :=
  { nonce := ("n"), code_verifier := ("cv"), appState := some (("app"))
    scope := [("openid")], audience := ("default") }

/-- A state whose transaction store holds `txX` under state key s1. -/
def stTx : ClientState := { transactions := [(("s1"), txX)] }

/-- A callback query with a valid code for state s1. -/
def qOk : ParsedQuery := { state := some (("s1")), code := some (("c1")) }

/-- A callback query carrying an error for state s1. -/
def qErr : ParsedQuery :=
  { state := some (("s1")), error := some (("access_denied"))
    error_description := some (("user denied")) }

/-! Helper lemmas -/

theorem mem_dedupAux (a : String) (l : List String) :
    ∀ seen, a ∈ dedupAux seen l ↔ a ∈ l ∧ a ∉ seen := by
  induction l with
  | nil => intro seen; simp [dedupAux]
  | cons x xs ih =>
    intro seen
    by_cases hx : x ∈ seen
    · simp only [dedupAux, if_pos hx, ih, List.mem_cons]
      constructor
      · rintro ⟨h1, h2⟩; exact ⟨Or.inr h1, h2⟩
      · rintro ⟨h1 | h1, h2⟩
        · exact absurd (h1 ▸ hx) h2
        · exact ⟨h1, h2⟩
    · simp only [dedupAux, if_neg hx, List.mem_cons, ih]
      by_cases hax : a = x
      · subst hax; simp [hx]
      · simp [hax]

theorem nodup_dedupAux (l : List String) : ∀ seen, (dedupAux seen l).Nodup := by
  induction l with
  | nil => intro seen; simp [dedupAux]
  | cons x xs ih =>
    intro seen
    by_cases hx : x ∈ seen
    · simpa [dedupAux, hx] using ih seen
    · simp only [dedupAux, if_neg hx, List.nodup_cons]
      refine ⟨fun hmem => ?_, ih _⟩
      exact ((mem_dedupAux x xs _).mp hmem).2 (List.mem_cons_self x seen)

theorem mem_getUniqueScopes (a : String) (scopes : List (Option Scope)) :
    a ∈ getUniqueScopes scopes ↔ ∃ l, some l ∈ scopes ∧ a ∈ l := by
  simp only [getUniqueScopes, mem_dedupAux, List.not_mem_nil, not_false_iff,
    and_true, List.mem_flatten, List.mem_filterMap, id_eq]
  constructor
  · rintro ⟨l, ⟨ol, hol, hid⟩, hal⟩
    exact ⟨l, hid ▸ hol, hal⟩
  · rintro ⟨l, hl, hal⟩
    exact ⟨l, ⟨some l, hl, rfl⟩, hal⟩

theorem txGet_txRemove (txs : List (String × Transaction)) (k : String) :
    txGet (txRemove txs (some k)) (some k) = none := by
  induction txs with
  | nil => rfl
  | cons p ps ih =>
    by_cases hp : p.1 = k
    · simp [txGet, txRemove, List.filter_cons, hp]
    · simp [txGet, txRemove, List.filter_cons, List.find?_cons, hp]

theorem refresh_releases_eq (c : Auth0Client) (o : GetTokenSilentlyOptions)
    (st : ClientState) (now : Nat)
    (oauth : Option String → Except String TokenResponse)
    (verify : String → Option String → Except String DecodedToken) :
    (getTokenUsingRefreshToken c o st now oauth verify).2.releases = st.releases := by
  rcases hL : refreshCacheLookup c o st.cache now with _ | e
  · simp [getTokenUsingRefreshToken, hL]
  · by_cases hr : strTruthy e.refresh_token = true
    · rcases ho : oauth e.refresh_token with m | tok
      · simp [getTokenUsingRefreshToken, hL, hr, ho]
      · rcases hv : verify tok.id_token none with m | dec
        · simp [getTokenUsingRefreshToken, hL, hr, ho, hv]
        · simp [getTokenUsingRefreshToken, hL, hr, ho, hv]
    · simp [getTokenUsingRefreshToken, hL, hr]

theorem finishAuth_releases_eq (cid : String) (r : SilentAuthResult)
    (st : ClientState) (now : Nat) :
    (finishAuth cid r st now).2.releases = st.releases := by
  cases r <;> rfl

theorem gtsBody_releases_eq (c : Auth0Client) (o : GetTokenSilentlyOptions)
    (st : ClientState) (now : Nat)
    (oauth : Option String → Except String TokenResponse)
    (verify : String → Option String → Except String DecodedToken) :
    (gtsBody c o st now oauth verify).2.releases = st.releases := by
  rcases hE : gtsEarlyHit c o st.cache now with _ | t
  · by_cases hA : refreshApplicable c o = true
    · rcases hR : getTokenUsingRefreshToken c (gtsTokenOptions c o) (acquireLock st)
          now oauth verify with ⟨res, st2⟩
      have h2 : st2.releases = st.releases := by
        have h3 := refresh_releases_eq c (gtsTokenOptions c o) (acquireLock st)
          now oauth verify
        rw [hR] at h3
        exact h3
      cases res with
      | error e => simp [gtsBody, hE, hA, hR, h2]
      | ok r => simp [gtsBody, hE, hA, hR, finishAuth_releases_eq, h2]
    · simp [gtsBody, hE, hA, finishAuth_releases_eq, acquireLock]
  · simp [gtsBody, hE]

/-! Claim theorems -/

/-- C3: every execution of `getTokenSilently` — cache hit, successful refresh,
exchange failure, verification failure, or the TypeError path — ends with the
cross-tab mutex not held and with exactly one `releaseLock` performed by the
`finally` block, for every client, option set, starting state, and behaviour
of the token endpoint and verifier. -/
theorem c3_lock_released_on_all_paths (c : Auth0Client)
    (o : GetTokenSilentlyOptions) (st : ClientState) (now : Nat)
    (oauth : Option String → Except String TokenResponse)
    (verify : String → Option String → Except String DecodedToken) :
    (getTokenSilently c o st now oauth verify).2.lockHeld = false
    ∧ (getTokenSilently c o st now oauth verify).2.releases = st.releases + 1 := by
  refine ⟨rfl, ?_⟩
  show (releaseLock (gtsBody c o st now oauth verify).2).releases = st.releases + 1
  unfold releaseLock
  rw [gtsBody_releases_eq]

/-- C7: `logout` called with both `federated` and `localOnly` set throws the
configuration error before any state is mutated: the returned state — cache,
authenticated flag and all — is exactly the input state. -/
theorem c7_logout_conflict_preserves_state (c : Auth0Client) (o : LogoutOptions)
    (st : ClientState) :
    logout c { o with federated := true, localOnly := true } st
      = (Except.error
          (("It is invalid to set both the federated and localOnly options to true")),
        st) := rfl

/-- C1 evaluated at the failing input: with refresh tokens disabled and an
empty cache, `getTokenSilently` does not fail — it returns normally with
`undefined` (the `Error('Could not refresh token')` value has no
`access_token` property), after writing a cache entry and setting the
authenticated flag. -/
theorem c1_refresh_inapplicable_returns_undefined :
    (getTokenSilently cNoRt {} {} 0 oauthFail verifyFail).1 = GtsOutcome.ret none
    ∧ (getTokenSilently cNoRt {} {} 0 oauthFail verifyFail).2.flag = true
    ∧ (getTokenSilently cNoRt {} {} 0 oauthFail verifyFail).2.cacheSaves = 1 :=
  ⟨rfl, rfl, rfl⟩

/-- C2 counterexample: a refresh-token grant attempt against an empty
Credential Cache does not fail at all — `_getTokenUsingRefreshToken` returns
normally with `undefined` and the state untouched, rather than failing with a
MissingRefreshTokenError. -/
theorem c2_missing_refresh_token_counterexample :
    getTokenUsingRefreshToken cRt (gtsTokenOptions cRt {}) {} 0 oauthFail verifyFail
      = (Except.ok SilentAuthResult.undef, ({} : ClientState)) := rfl

/-- C2 amended: when the Credential Cache holds no entry for the current key,
or the entry has no (truthy) `refresh_token`, `_getTokenUsingRefreshToken`
returns `undefined` without raising any error and without calling the token
endpoint or touching any state. -/
theorem c2_missing_refresh_token_returns_undefined (c : Auth0Client)
    (o : GetTokenSilentlyOptions) (st : ClientState) (now : Nat)
    (oauth : Option String → Except String TokenResponse)
    (verify : String → Option String → Except String DecodedToken)
    (h : refreshCacheLookup c o st.cache now = none
       ∨ ∃ e, refreshCacheLookup c o st.cache now = some e
           ∧ strTruthy e.refresh_token = false) :
    getTokenUsingRefreshToken c o st now oauth verify
      = (Except.ok SilentAuthResult.undef, st) := by
  rcases h with h | ⟨e, he, hrt⟩
  · simp [getTokenUsingRefreshToken, h]
  · simp [getTokenUsingRefreshToken, he, hrt]

/-- C2 witness: the amended statement applied at a concrete client, state and
clock. -/
theorem c2_missing_refresh_token_returns_undefined_witness :
    getTokenUsingRefreshToken cRt (gtsTokenOptions cRt {}) stC2 7 oauthFail verifyFail
      = (Except.ok SilentAuthResult.undef, stC2) :=
  c2_missing_refresh_token_returns_undefined cRt (gtsTokenOptions cRt {}) stC2 7
    oauthFail verifyFail (Or.inl rfl)

/-- C5: with `ignoreCache` unset, if the 60-second-grace cache read returns an
entry with a (truthy) access token, `getTokenSilently` returns exactly that
token, never calls the token endpoint, and never acquires the cross-tab
lock. -/
theorem c5_cache_hit_no_exchange (c : Auth0Client) (o : GetTokenSilentlyOptions)
    (st : ClientState) (now : Nat)
    (oauth : Option String → Except String TokenResponse)
    (verify : String → Option String → Except String DecodedToken)
    (e : CacheEntry) (t : String)
    (hic : o.ignoreCache.getD false = false)
    (hget : cacheGet st.cache c.options.client_id
        (some (audOrDefault (effAudience c o)))
        (some (gtsKeyScope c o.scope)) 60 now = some e)
    (hat : e.access_token = some t) (hne : t ≠ ("")) :
    (getTokenSilently c o st now oauth verify).1 = GtsOutcome.ret (some t)
    ∧ (getTokenSilently c o st now oauth verify).2.exchangeCalls = st.exchangeCalls
    ∧ (getTokenSilently c o st now oauth verify).2.acquires = st.acquires := by
  have hE : gtsEarlyHit c o st.cache now = some t := by
    simp [gtsEarlyHit, hic, hget, hat, strTruthy, hne]
  refine ⟨?_, ?_, ?_⟩ <;>
    simp [getTokenSilently, gtsBody, hE, releaseLock]

/-- C5 witness: the cache-hit property applied at a concrete client, cached
entry and clock. -/
theorem c5_cache_hit_no_exchange_witness :
    (getTokenSilently cNoRt {} stHit 0 oauthFail verifyFail).1
        = GtsOutcome.ret (some (("tok")))
    ∧ (getTokenSilently cNoRt {} stHit 0 oauthFail verifyFail).2.exchangeCalls = 0
    ∧ (getTokenSilently cNoRt {} stHit 0 oauthFail verifyFail).2.acquires = 0 :=
  c5_cache_hit_no_exchange cNoRt {} stHit 0 oauthFail verifyFail entryHit (("tok"))
    rfl rfl rfl (by decide)

/-- C10: on the cache-hit path `acquireLock` is never called, yet the
`finally` block still invokes `releaseLock` once — release is not paired
one-to-one with acquisition. -/
theorem c10_release_without_acquire_on_cache_hit (c : Auth0Client)
    (o : GetTokenSilentlyOptions) (st : ClientState) (now : Nat)
    (oauth : Option String → Except String TokenResponse)
    (verify : String → Option String → Except String DecodedToken)
    (e : CacheEntry) (t : String)
    (hic : o.ignoreCache.getD false = false)
    (hget : cacheGet st.cache c.options.client_id
        (some (audOrDefault (effAudience c o)))
        (some (gtsKeyScope c o.scope)) 60 now = some e)
    (hat : e.access_token = some t) (hne : t ≠ ("")) :
    (getTokenSilently c o st now oauth verify).2.acquires = st.acquires
    ∧ (getTokenSilently c o st now oauth verify).2.releases = st.releases + 1 := by
  have hE : gtsEarlyHit c o st.cache now = some t := by
    simp [gtsEarlyHit, hic, hget, hat, strTruthy, hne]
  refine ⟨?_, ?_⟩ <;> simp [getTokenSilently, gtsBody, hE, releaseLock]

/-- C10 witness: the unbalanced-release property applied at a concrete cache
hit with nonzero starting counters. -/
theorem c10_release_without_acquire_on_cache_hit_witness :
    (getTokenSilently cNoRt {} stHit2 0 oauthFail verifyFail).2.acquires = 4
    ∧ (getTokenSilently cNoRt {} stHit2 0 oauthFail verifyFail).2.releases = 4 + 1 :=
  c10_release_without_acquire_on_cache_hit cNoRt {} stHit2 0 oauthFail verifyFail
    entryHit2 (("tok2")) rfl rfl rfl (by decide)

/-- C9: whenever `getTokenSilently` misses the cache and then either the
refresh branch is inapplicable (refresh tokens disabled or a truthy explicit
audience) or the refresh lookup yields no usable refresh token, the call still
writes a cache entry and sets the persisted authenticated flag before it
returns `undefined` (inapplicable branch) or throws the TypeError (missing
refresh token). -/
theorem c9_failure_path_still_writes_cache_and_flag (c : Auth0Client)
    (o : GetTokenSilentlyOptions) (st : ClientState) (now : Nat)
    (oauth : Option String → Except String TokenResponse)
    (verify : String → Option String → Except String DecodedToken)
    (hmiss : gtsEarlyHit c o st.cache now = none)
    (hpath : refreshApplicable c o = false
       ∨ refreshTokenMissing c (gtsTokenOptions c o) st.cache now = true) :
    (getTokenSilently c o st now oauth verify).2.flag = true
    ∧ (getTokenSilently c o st now oauth verify).2.cacheSaves = st.cacheSaves + 1
    ∧ ((getTokenSilently c o st now oauth verify).1 = GtsOutcome.ret none
       ∨ (getTokenSilently c o st now oauth verify).1
           = GtsOutcome.thrown TokenError.typeError) := by
  by_cases hA : refreshApplicable c o = true
  · have hm : refreshTokenMissing c (gtsTokenOptions c o) st.cache now = true := by
      rcases hpath with h | h
      · rw [h] at hA; cases hA
      · exact h
    have hcache : (acquireLock st).cache = st.cache := rfl
    have hund : getTokenUsingRefreshToken c (gtsTokenOptions c o) (acquireLock st)
        now oauth verify = (Except.ok SilentAuthResult.undef, acquireLock st) := by
      apply c2_missing_refresh_token_returns_undefined
      rw [hcache]
      unfold refreshTokenMissing at hm
      rcases hL : refreshCacheLookup c (gtsTokenOptions c o) st.cache now with _ | e
      · exact Or.inl rfl
      · rw [hL] at hm
        simp only [Bool.not_eq_true'] at hm
        exact Or.inr ⟨e, rfl, hm⟩
    have hb : gtsBody c o st now oauth verify
        = finishAuth c.options.client_id SilentAuthResult.undef (acquireLock st) now := by
      simp only [gtsBody, hmiss]
      rw [if_pos hA, hund]
    refine ⟨?_, ?_, Or.inr ?_⟩ <;>
    · show _
      simp only [getTokenSilently]
      rw [hb]
      simp [finishAuth, releaseLock, acquireLock]
  · have hb : gtsBody c o st now oauth verify
        = finishAuth c.options.client_id SilentAuthResult.errObj (acquireLock st) now := by
      simp only [gtsBody, hmiss]
      rw [if_neg hA]
    refine ⟨?_, ?_, Or.inl ?_⟩ <;>
    · show _
      simp only [getTokenSilently]
      rw [hb]
      simp [finishAuth, releaseLock, acquireLock]

/-- C9 witness: the property applied at a concrete refresh-disabled client
with an empty cache and a nonzero starting save counter. -/
theorem c9_failure_path_still_writes_cache_and_flag_witness :
    (getTokenSilently cNoRt {} stC9 3 oauthFail verifyFail).2.flag = true
    ∧ (getTokenSilently cNoRt {} stC9 3 oauthFail verifyFail).2.cacheSaves = 2 + 1
    ∧ ((getTokenSilently cNoRt {} stC9 3 oauthFail verifyFail).1 = GtsOutcome.ret none
       ∨ (getTokenSilently cNoRt {} stC9 3 oauthFail verifyFail).1
           = GtsOutcome.thrown TokenError.typeError) :=
  c9_failure_path_still_writes_cache_and_flag cNoRt {} stC9 3 oauthFail verifyFail
    rfl (Or.inl rfl)

theorem mem_uniqueScopes_two (x y : Option Scope) (a : String) :
    a ∈ getUniqueScopes [x, y] ↔ a ∈ optScope x ∨ a ∈ optScope y := by
  rw [mem_getUniqueScopes]
  cases x <;> cases y <;>
    simp [optScope, or_and_right, exists_or, exists_eq_left]

theorem mem_uniqueScopes_three (x y z : Option Scope) (a : String) :
    a ∈ getUniqueScopes [x, y, z]
      ↔ a ∈ optScope x ∨ a ∈ optScope y ∨ a ∈ optScope z := by
  rw [mem_getUniqueScopes]
  cases x <;> cases y <;> cases z <;>
    simp [optScope, or_and_right, exists_or, exists_eq_left]

/-- C4: applying `handleRedirectCallback` twice to the same callback URL
(valid `state` and `code`, successful exchange and verification): the first
call returns the transaction's `appState` and consumes the transaction, and
the second call fails with the Invalid state error, leaving the state of the
first call untouched. -/
theorem c4_double_callback_second_invalid_state (c : Auth0Client)
    (q : ParsedQuery) (s : String) (tx : Transaction) (st : ClientState)
    (now : Nat) (oauth : Option String → Except String TokenResponse)
    (verify : String → Option String → Except String DecodedToken)
    (tok : TokenResponse) (dec : DecodedToken)
    (hq : q.state = some s) (herr : q.error = none)
    (htx : txGet st.transactions q.state = some tx)
    (hoauth : oauth q.code = Except.ok tok)
    (hverify : verify tok.id_token (some tx.nonce) = Except.ok dec) :
    (handleRedirectCallback c (some q) st now oauth verify).1 = Except.ok tx.appState
    ∧ txGet (handleRedirectCallback c (some q) st now oauth verify).2.transactions
        q.state = none
    ∧ handleRedirectCallback c (some q)
        (handleRedirectCallback c (some q) st now oauth verify).2 now oauth verify
      = (Except.error CallbackError.invalidState,
         (handleRedirectCallback c (some q) st now oauth verify).2) := by
  have herrb : strTruthy q.error = false := by rw [herr]; rfl
  have h2 : txGet (handleRedirectCallback c (some q) st now oauth verify).2.transactions
      q.state = none := by
    simp only [handleRedirectCallback, htx, herrb, Bool.false_eq_true, if_false,
      hoauth, hverify]
    rw [hq]
    exact txGet_txRemove st.transactions s
  refine ⟨?_, h2, ?_⟩
  · simp only [handleRedirectCallback, htx, herrb, Bool.false_eq_true, if_false,
      hoauth, hverify]
  · set st4 := (handleRedirectCallback c (some q) st now oauth verify).2 with hst4
    simp [handleRedirectCallback, h2]

/-- C4 witness: the double-delivery property applied to a concrete
transaction store, query, and successful oracles. -/
theorem c4_double_callback_second_invalid_state_witness :
    (handleRedirectCallback cNoRt (some qOk) stTx 0 oauthOk verifyOk).1
        = Except.ok (some (("app")))
    ∧ txGet (handleRedirectCallback cNoRt (some qOk) stTx 0 oauthOk verifyOk).2.transactions
        qOk.state = none
    ∧ handleRedirectCallback cNoRt (some qOk)
        (handleRedirectCallback cNoRt (some qOk) stTx 0 oauthOk verifyOk).2 0
        oauthOk verifyOk
      = (Except.error CallbackError.invalidState,
         (handleRedirectCallback cNoRt (some qOk) stTx 0 oauthOk verifyOk).2) :=
  c4_double_callback_second_invalid_state cNoRt qOk (("s1")) txX stTx 0
    oauthOk verifyOk tokOk decOk rfl rfl rfl rfl rfl

/-- C6: a callback URL carrying a (truthy) `error` parameter whose `state`
matches a live transaction makes `handleRedirectCallback` delete that
transaction, leave the token endpoint untouched, and fail with an
`AuthenticationError` carrying the error code, the description, the state,
and the transaction's `appState`. -/
theorem c6_error_callback_deletes_transaction (c : Auth0Client)
    (q : ParsedQuery) (tx : Transaction) (st : ClientState) (now : Nat)
    (oauth : Option String → Except String TokenResponse)
    (verify : String → Option String → Except String DecodedToken) (e : String)
    (herr : q.error = some e) (hne : e ≠ (""))
    (htx : txGet st.transactions q.state = some tx) :
    (handleRedirectCallback c (some q) st now oauth verify).1
      = Except.error (CallbackError.authenticationError e q.error_description
          q.state tx.appState)
    ∧ (handleRedirectCallback c (some q) st now oauth verify).2.exchangeCalls
        = st.exchangeCalls
    ∧ txGet (handleRedirectCallback c (some q) st now oauth verify).2.transactions
        q.state = none := by
  have herrb : strTruthy (some e) = true := by simp [strTruthy, hne]
  obtain ⟨s, hs⟩ : ∃ s, q.state = some s := by
    cases hq : q.state with
    | none => rw [hq] at htx; simp [txGet] at htx
    | some s => exact ⟨s, rfl⟩
  refine ⟨?_, ?_, ?_⟩
  · simp [handleRedirectCallback, htx, herr, herrb]
  · simp [handleRedirectCallback, htx, herr, herrb]
  · simp only [handleRedirectCallback, htx, herr, herrb, if_true]
    rw [hs]
    exact txGet_txRemove st.transactions s

/-- C6 witness: the error-callback property applied to a concrete transaction
store and error query. -/
theorem c6_error_callback_deletes_transaction_witness :
    (handleRedirectCallback cNoRt (some qErr) stTx 0 oauthOk verifyOk).1
      = Except.error (CallbackError.authenticationError (("access_denied"))
          (some (("user denied"))) (some (("s1"))) (some (("app"))))
    ∧ (handleRedirectCallback cNoRt (some qErr) stTx 0 oauthOk verifyOk).2.exchangeCalls
        = 0
    ∧ txGet (handleRedirectCallback cNoRt (some qErr) stTx 0 oauthOk verifyOk).2.transactions
        qErr.state = none :=
  c6_error_callback_deletes_transaction cNoRt qErr txX stTx 0 oauthOk verifyOk
    (("access_denied")) rfl (by decide) rfl

/-- C8 counterexample: for a client configured with scope read:custom, a
`getUser` call passing the per-call scope foo uses a cache-key scope that is
not (even as a set) the union of the default scope, the client-configured
scope, and the per-call scope — the client-configured scope is missing. -/
theorem c8_getUser_key_scope_counterexample :
    scopeSetEq (getUserKeyScope cScoped (some [("foo")]))
      (getUniqueScopes [some cScoped.defaultScope, cScoped.scope, some [("foo")]])
      = false := by decide

/-- C8 amended: `getTokenSilently` and `getIdTokenClaims` use as cache-key
scope the duplicate-free, order-independent (as a word set) union of the
default scope, the client-configured scope, and the per-call scope, and two
such calls requesting equal semantic scope sets produce set-equal keys;
`getUser`, however, unions only the default and per-call scopes, omitting the
client-configured scope. -/
theorem c8_key_scope_amended :
    (∀ (c : Auth0Client) (cs : Option Scope) (a : String),
        a ∈ gtsKeyScope c cs
          ↔ a ∈ c.defaultScope ∨ a ∈ optScope c.scope ∨ a ∈ optScope cs)
    ∧ (∀ (c : Auth0Client) (cs : Option Scope), (gtsKeyScope c cs).Nodup)
    ∧ (∀ (c : Auth0Client) (cs : Option Scope),
        getIdTokenClaimsKeyScope c cs = gtsKeyScope c cs)
    ∧ (∀ (c : Auth0Client) (cs : Option Scope) (a : String),
        a ∈ getUserKeyScope c cs ↔ a ∈ c.defaultScope ∨ a ∈ optScope cs)
    ∧ (∀ (c : Auth0Client) (cs1 cs2 : Option Scope),
        (∀ x, x ∈ optScope cs1 ↔ x ∈ optScope cs2) →
        scopeSetEq (gtsKeyScope c cs1) (gtsKeyScope c cs2) = true) := by
  have hmem : ∀ (c : Auth0Client) (cs : Option Scope) (a : String),
      a ∈ gtsKeyScope c cs
        ↔ a ∈ c.defaultScope ∨ a ∈ optScope c.scope ∨ a ∈ optScope cs := by
    intro c cs a
    simpa [optScope] using mem_uniqueScopes_three (some c.defaultScope) c.scope cs a
  refine ⟨hmem, ?_, ?_, ?_, ?_⟩
  · intro c cs; exact nodup_dedupAux _ _
  · intro c cs; rfl
  · intro c cs a
    simpa [optScope] using mem_uniqueScopes_two (some c.defaultScope) cs a
  · intro c cs1 cs2 h
    simp only [scopeSetEq, scopeSubset, Bool.and_eq_true, List.all_eq_true,
      decide_eq_true_eq]
    constructor <;> intro w hw
    · rcases (hmem c cs1 w).mp hw with h1 | h1 | h1
      · exact (hmem c cs2 w).mpr (Or.inl h1)
      · exact (hmem c cs2 w).mpr (Or.inr (Or.inl h1))
      · exact (hmem c cs2 w).mpr (Or.inr (Or.inr ((h w).mp h1)))
    · rcases (hmem c cs2 w).mp hw with h1 | h1 | h1
      · exact (hmem c cs1 w).mpr (Or.inl h1)
      · exact (hmem c cs1 w).mpr (Or.inr (Or.inl h1))
      · exact (hmem c cs1 w).mpr (Or.inr (Or.inr ((h w).mpr h1)))

/-- C8 witness: the set-equality consequence of the amended claim applied to
two per-call scopes listing the same words in different orders. -/
theorem c8_key_scope_amended_witness :
    scopeSetEq (gtsKeyScope cScoped (some [("a"), ("b")]))
      (gtsKeyScope cScoped (some [("b"), ("a")])) = true :=
  c8_key_scope_amended.2.2.2.2 cScoped (some [("a"), ("b")]) (some [("b"), ("a")])
    (by intro x; simp only [optScope, Option.getD_some, List.mem_cons]; tauto)

end Auth0